import Mathlib

/-!
Shallow embedding of `ipythontools/jupyter2article.py`: the notebook data
model (cells, outputs), the per-cell-type converters, the cell matcher
(`ismarkercell`, `find_cell`) and the range-selection part of
`NotebookConverter.convert`.

Python dictionaries for cells are embedded as a structure with optional
fields (a missing key raises `KeyError`, modelled by `ConvError.keyError`).
Python exceptions are modelled by the `ConvError` type and fallible
operations return `Except ConvError _`.  Converters that mutate the cell
in place (Python list aliasing) return the updated cell next to their
output lines, so mutation is explicit.  String operations (`lstrip`,
`re.sub(r'\W+', ...)`, `.lower()`, the regex `\s*#+\s*`) are modelled on
ASCII text, which is what the program processes.
-/

/-- An entry of a code cell's `outputs` list; it optionally carries a
`text` field (a list of lines). -/
structure Output where
  text : Option (List String)
deriving DecidableEq, Repr

/-- A notebook cell: a Python dict whose keys may or may not be present.
`cell_type` is one of "code", "markdown", "raw", "heading"; `source`
(newer schema) or `input` (legacy schema) holds the source lines;
code cells carry `outputs` and heading cells carry an integer `level`. -/
structure Cell where
  cell_type : Option String
  source : Option (List String)
  input : Option (List String)
  outputs : Option (List Output)
  level : Option Int
deriving DecidableEq, Repr

/-- Python exceptions raised by the converter code. -/
inductive ConvError where
  /-- `ValueError('cell "..." not found in notebook.')` -/
  | notFound (marker : String)
  /-- `ValueError('Cells need to be specified with integer number or content string')` -/
  | invalidMarker
  /-- `Exception('Start cell found after end cell')` -/
  | rangeError
  /-- `IndexError` from a list or string subscript out of range -/
  | indexError
  /-- `KeyError` from a missing dict key -/
  | keyError (k : String)
  /-- other `ValueError` (e.g. 'Type of cell not recognized.') -/
  | valueError (msg : String)
deriving DecidableEq, Repr

/-- A start/stop marker: `int` for an integer (or integer-like) value,
`str` for a string, `other` for a value `int()` cannot convert. -/
inductive Marker where
  | int (n : Int)
  | str (s : String)
  | other
deriving DecidableEq, Repr

instance {ε α : Type} [DecidableEq ε] [DecidableEq α] : DecidableEq (Except ε α)
  | .ok a, .ok b =>
    if h : a = b then .isTrue (congrArg Except.ok h)
    else .isFalse (fun hh => h (Except.ok.inj hh))
  | .error a, .error b =>
    if h : a = b then .isTrue (congrArg Except.error h)
    else .isFalse (fun hh => h (Except.error.inj hh))
  | .ok _, .error _ => .isFalse (fun hh => Except.noConfusion hh)
  | .error _, .ok _ => .isFalse (fun hh => Except.noConfusion hh)

/-- Python `\s` (ASCII part): space, tab, newline, carriage return,
vertical tab, form feed. -/
def isPySpace (c : Char) : Bool :=
  c == ' ' || c == '\t' || c == '\n' || c == '\r' || c == '\x0b' || c == '\x0c'

/-- A word character for Python's `\W` (ASCII): alphanumeric or underscore. -/
def isWordChar (c : Char) : Bool :=
  c.isAlphanum || c == '_'

/-- `re.sub(r'\W+', '', title)`: delete every non-word character. -/
def pySubNonWord (s : String) : String :=
  String.mk (s.toList.filter isWordChar)

/-- Python `str.lower()` (ASCII): lowercase every character. -/
def pyLower (s : String) : String :=
  String.mk (s.toList.map Char.toLower)

/-- Python `s.lstrip('# ')`: drop leading characters from the set `{'#', ' '}`. -/
def pyLstripHashSpace (s : String) : String :=
  String.mk (s.toList.dropWhile (fun c => c == '#' || c == ' '))

/-- Python list indexing `l[i]` with negative-index wrap-around;
out of range raises `IndexError`. -/
def pyIndex {α : Type} (l : List α) (i : Int) : Except ConvError α :=
  let j : Int := if i < 0 then i + l.length else i
  if j < 0 then .error .indexError
  else
    match l.get? j.toNat with
    | some x => .ok x
    | none => .error .indexError

/-- One bound of a Python slice `l[a:b]`: negative values count from the
end, then the bound is clamped into `[0, len]`. -/
def pySliceBound (len : Nat) (i : Int) : Nat :=
  if i < 0 then (max (i + len) 0).toNat else min i.toNat len

/-- Python slice `l[a:b]`. -/
def pySlice {α : Type} (l : List α) (a b : Int) : List α :=
  let lo := pySliceBound l.length a
  let hi := pySliceBound l.length b
  (l.drop lo).take (hi - lo)

/-- `text[-1] += '\n'` guarded by `len(text) > 0`: append a newline to the
last line of a list of lines (no-op on the empty list). -/
def appendNewlineLast : List String → List String
  | [] => []
  | [s] => [s ++ "\n"]
  | s :: t :: r => s :: appendNewlineLast (t :: r)

/-- `ismarkercell(cell, start)` of jupyter2article.py: compare the first
line of cell content with the string `start`; for markdown cells both
sides are first stripped of leading `'#'` and `' '` characters. -/
def ismarkercell (cell : Cell) (start : String) : Except ConvError Bool :=
  match cell.source with
  | some src =>
    if cell.cell_type = some "markdown" then
      match src with
      | [] => .error .indexError
      | l :: _ => .ok (pyLstripHashSpace l == pyLstripHashSpace start)
    else
      match src with
      | [] => .error .indexError
      | l :: _ => .ok (l == start)
  | none =>
    match cell.input with
    | some src =>
      match src with
      | [] => .error .indexError
      | l :: _ => .ok (l == start)
    | none => .error (.valueError "Type of cell not recognized.")

/-- The scan loop of `find_cell` for a string marker: index of the first
cell for which `ismarkercell` is true, starting the count at `k`. -/
def findMarkerIdx : List Cell → String → Nat → Except ConvError Nat
  | [], m, _ => .error (.notFound m)
  | c :: cs, m, k =>
    match ismarkercell c m with
    | .error e => .error e
    | .ok b => if b then .ok k else findMarkerIdx cs m (k + 1)

/-- `NotebookConverter.find_cell(cells, marker, skip)`: a string marker is
scanned for and the first matching index plus `skip` is returned; an
integer marker is returned directly; anything else is an error. -/
def find_cell (cells : List Cell) (marker : Marker) (skip : Int) :
    Except ConvError Int :=
  match marker with
  | .str s => (findMarkerIdx cells s 0).map (fun i => (i : Int) + skip)
  | .int n => .ok n
  | .other => .error .invalidMarker

/-- `IgnoreConverter.__call__`: always the empty list, cell untouched. -/
def IgnoreConverter (cell : Cell) : Except ConvError (List String × Cell) :=
  .ok ([], cell)

/-- `LiteralSourceConverter.__call__`: return the cell's `source` lines
with a newline appended to the last one.  The Python code does
`text = cell['source']; text[-1] += '\n'`, mutating the cell's own source
list through the alias, so the returned cell carries the updated source.
An empty source returns the string `'\n'`, which the caller iterates as
the single line `"\n"`. -/
def LiteralSourceConverter (cell : Cell) : Except ConvError (List String × Cell) :=
  match cell.source with
  | none => .error (.keyError "source")
  | some [] => .ok (["\n"], cell)
  | some (s :: r) =>
    let text := appendNewlineLast (s :: r)
    .ok (text, { cell with source := some text })

/-- `MarkedCodeOutputConverter.__call__`: if the marker (with or without a
trailing newline) occurs among the source lines, collect the `text` lines
of every output that has a `text` field and newline-terminate the last
one; otherwise return the empty list.  The collected list is fresh
(`text = []` extended by copies), so the cell is unchanged. -/
def MarkedCodeOutputConverter (marker : String) (cell : Cell) :
    Except ConvError (List String × Cell) :=
  let src? : Except ConvError (List String) :=
    match cell.source with
    | some s => .ok s
    | none =>
      match cell.input with
      | some s => .ok s
      | none => .error (.keyError "input")
  match src? with
  | .error e => .error e
  | .ok source =>
    if marker ∈ source ∨ (marker ++ "\n") ∈ source then
      match cell.outputs with
      | none => .error (.keyError "outputs")
      | some outs =>
        .ok (appendNewlineLast (outs.filterMap Output.text).flatten, cell)
    else .ok ([], cell)

/-- The default `latexlevels` list of `LatexHeadingConverter` and
`MinimalMarkdownConverter`. -/
def defaultLatexLevels : List String :=
  ["chapter", "section", "subsection", "subsubsection", "paragraph", "subparagraph"]

/-- The `line2` computed by `LatexHeadingConverter.__call__`:
`'\label{sect:' + re.sub(r'\W+', '', title).lower() + '}\n'`. -/
def headingLabelLine (title : String) : String :=
  "\\label\x7bsect:" ++ pyLower (pySubNonWord title) ++ "\x7d\n"

/-- `LatexHeadingConverter.__call__`: join all source lines into the
title, look the level keyword up in `latexlevels` (Python indexing, so
negative `level - 1` counts from the end and an index past the end raises
`IndexError`) and emit the five lines blank, blank, heading directive,
label, blank. -/
def LatexHeadingConverter (latexlevels : List String) (cell : Cell) :
    Except ConvError (List String × Cell) :=
  match cell.source with
  | none => .error (.keyError "source")
  | some src =>
    match cell.level with
    | none => .error (.keyError "level")
    | some lvl =>
      let title := String.join src
      match pyIndex latexlevels (lvl - 1) with
      | .error e => .error e
      | .ok kw =>
        let line1 := "\\" ++ kw ++ "\x7b" ++ title ++ "\x7d\n"
        .ok (["\n", "\n", line1, headingLabelLine title, "\n"], cell)

/-- The match of the regex `\s*#+\s*` against the start of a line: when
the line starts with optional whitespace followed by at least one `'#'`,
return the matched prefix (whitespace run, `'#'` run, whitespace run) and
the rest of the line; otherwise `none`. -/
def headerSplit (cs : List Char) : Option (List Char × List Char) :=
  let ws1 := cs.takeWhile isPySpace
  let r1 := cs.dropWhile isPySpace
  let hs := r1.takeWhile (fun c => c == '#')
  let r2 := r1.dropWhile (fun c => c == '#')
  if hs.isEmpty then none
  else
    let ws2 := r2.takeWhile isPySpace
    let r3 := r2.dropWhile isPySpace
    some (ws1 ++ hs ++ ws2, r3)

/-- The `line2` computed by `MinimalMarkdownConverter.__call__`, textually
the same expression as in `LatexHeadingConverter.__call__`. -/
def markdownLabelLine (title : String) : String :=
  "\\label\x7bsect:" ++ pyLower (pySubNonWord title) ++ "\x7d\n"

/-- The per-line body of `MinimalMarkdownConverter.__call__`: a line
matching `\s*#+\s*` becomes heading directive plus label (`title[-1]` on
an empty title raises `IndexError`); any other line is copied verbatim. -/
def convertMarkdownLine (latexlevels : List String) (line : String) :
    Except ConvError (List String) :=
  match headerSplit line.toList with
  | none => .ok [line]
  | some (pre, rest) =>
    match rest.getLast? with
    | none => .error .indexError
    | some lastc =>
      let title := String.mk (if lastc == '\n' then rest.dropLast else rest)
      let level : Int := pre.count '#'
      match pyIndex latexlevels (level - 1) with
      | .error e => .error e
      | .ok kw =>
        let line1 := "\\" ++ kw ++ "\x7b" ++ title ++ "\x7d\n"
        .ok [line1, markdownLabelLine title]

/-- The loop of `MinimalMarkdownConverter.__call__` over the source lines. -/
def convertMarkdownLines (latexlevels : List String) :
    List String → Except ConvError (List String)
  | [] => .ok []
  | l :: ls =>
    match convertMarkdownLine latexlevels l with
    | .error e => .error e
    | .ok a =>
      match convertMarkdownLines latexlevels ls with
      | .error e => .error e
      | .ok b => .ok (a ++ b)

/-- `MinimalMarkdownConverter.__call__`: empty source makes a lone blank
line (`'\n'`, iterated as one line); otherwise each line is converted and
the result is terminated with two blank lines.  The output list is fresh,
so the cell is unchanged. -/
def MinimalMarkdownConverter (latexlevels : List String) (cell : Cell) :
    Except ConvError (List String × Cell) :=
  match cell.source with
  | none => .error (.keyError "source")
  | some [] => .ok (["\n"], cell)
  | some (l :: ls) =>
    match convertMarkdownLines latexlevels (l :: ls) with
    | .error e => .error e
    | .ok out => .ok (out ++ ["\n", "\n"], cell)

/-- `NotebookConverter.cellconverters[cell['cell_type']](cell)`: dispatch
on the cell type through the default converter table; a missing or
unregistered type raises `KeyError`. -/
def applyConverter (cell : Cell) : Except ConvError (List String × Cell) :=
  match cell.cell_type with
  | none => .error (.keyError "cell_type")
  | some t =>
    if t = "code" then MarkedCodeOutputConverter "# output->LaTeX" cell
    else if t = "heading" then LatexHeadingConverter defaultLatexLevels cell
    else if t = "markdown" then MinimalMarkdownConverter defaultLatexLevels cell
    else if t = "raw" then LiteralSourceConverter cell
    else .error (.keyError t)

/-- The cell loop of `NotebookConverter.convert`: converted lines of each
selected cell, concatenated left to right. -/
def convertCells : List Cell → Except ConvError (List String)
  | [] => .ok []
  | c :: cs =>
    match applyConverter c with
    | .error e => .error e
    | .ok p =>
      match convertCells cs with
      | .error e => .error e
      | .ok rest => .ok (p.1 ++ rest)

/-- The range-selection part of `NotebookConverter.convert` (lines
302-308): resolve `start` with `skip=1` and `stop` with `skip=0`, clamp
`stop` to the cell count, fail when `start > stop`, and slice. -/
def selectCells (cells : List Cell) (startM stopM : Marker) :
    Except ConvError (List Cell) :=
  match find_cell cells startM 1 with
  | .error e => .error e
  | .ok start =>
    match find_cell cells stopM 0 with
    | .error e => .error e
    | .ok stop =>
      let stop2 : Int :=
        if stop > (cells.length : Int) then (cells.length : Int) else stop
      if start > stop2 then .error .rangeError
      else .ok (pySlice cells start stop2)

/-- `NotebookConverter.convert` as a function from the parsed cell list
and the prefix/suffix lines to the written lines: an error result means
the exception was raised before the remaining lines were written (the
range check in particular fires before the output file is even opened). -/
def convert (cells : List Cell) (startM stopM : Marker)
    (pre post : List String) : Except ConvError (List String) :=
  match selectCells cells startM stopM with
  | .error e => .error e
  | .ok sel =>
    match convertCells sel with
    | .error e => .error e
    | .ok body => .ok (pre ++ body ++ post)

/-- The default `start` argument of `convert`. -/
def defaultStart : Marker := .int 0

/-- The default `stop` argument of `convert`. -/
def defaultStop : Marker := .int 100000000

/-! ### Concrete cells used by witnesses and counterexamples -/

/-- A cell with only a type tag and source lines (newer schema). -/
def mkCell (t : String) (src : List String) : Cell :=
  { cell_type := some t, source := some src, input := none,
    outputs := none, level := none }

/-- A heading cell with a level. -/
def mkHeadCell (src : List String) (lvl : Int) : Cell :=
  { cell_type := some "heading", source := some src, input := none,
    outputs := none, level := some lvl }

/-- A code cell with outputs. -/
def mkCodeCell (src : List String) (outs : List Output) : Cell :=
  { cell_type := some "code", source := some src, input := none,
    outputs := some outs, level := none }

/-- Five raw cells with distinct first lines, the RangeError scenario of
the spec. -/
def fiveCells : List Cell :=
  [mkCell "raw" ["c0"], mkCell "raw" ["c1"], mkCell "raw" ["c2"],
   mkCell "raw" ["c3"], mkCell "raw" ["c4"]]

/-! ### Helper lemmas -/

/-- The scan loop returns `k + i` when cell `i` is the first match. -/
theorem findMarkerIdx_first (m : String) (cells : List Cell) :
    ∀ (i k : Nat) (hi : i < cells.length),
      (∀ j, (hj : j < i) →
        ismarkercell (cells.get ⟨j, Nat.lt_trans hj hi⟩) m = .ok false) →
      ismarkercell (cells.get ⟨i, hi⟩) m = .ok true →
      findMarkerIdx cells m k = .ok (k + i) := by
  induction cells with
  | nil => intro i k hi _ _; exact absurd hi (by simp)
  | cons c cs ih =>
    intro i k hi hbef hmat
    cases i with
    | zero =>
      have hc : ismarkercell c m = .ok true := hmat
      simp [findMarkerIdx, hc]
    | succ n =>
      have hc : ismarkercell c m = .ok false := hbef 0 (Nat.succ_pos n)
      have hrec := ih n (k + 1) (Nat.lt_of_succ_lt_succ hi)
        (fun j hj => hbef (j + 1) (Nat.succ_lt_succ hj)) hmat
      simp [findMarkerIdx, hc, hrec]
      omega

/-- The scan loop reports `notFound` when no cell matches. -/
theorem findMarkerIdx_notFound (m : String) (cells : List Cell)
    (h : ∀ c ∈ cells, ismarkercell c m = .ok false) :
    ∀ k, findMarkerIdx cells m k = .error (.notFound m) := by
  induction cells with
  | nil => intro _; rfl
  | cons c cs ih =>
    intro k
    have hc : ismarkercell c m = .ok false := h c (by simp)
    simp [findMarkerIdx, hc]
    exact ih (fun x hx => h x (by simp [hx])) (k + 1)

/-! ### Claims -/

/-- C1: for every cell sequence and every string marker, `find_cell`
scans cells in order and returns the index of the first matching cell
plus the caller-supplied skip amount (so a start marker matching cell `i`
resolves to `i + 1` with skip 1 and the same marker as a stop marker
resolves to `i` with skip 0); a cell matches when its first source line
equals the marker, and for markdown cells both the first line and the
marker are first stripped of leading `'#'` and `' '` characters. -/
theorem C1_find_cell_marker_match :
    (∀ (cells : List Cell) (m : String) (skip : Int) (i : Nat)
       (hi : i < cells.length),
      (∀ j, (hj : j < i) →
        ismarkercell (cells.get ⟨j, Nat.lt_trans hj hi⟩) m = .ok false) →
      ismarkercell (cells.get ⟨i, hi⟩) m = .ok true →
      find_cell cells (.str m) skip = .ok ((i : Int) + skip))
    ∧ (∀ (cell : Cell) (m l : String) (rest : List String),
        cell.source = some (l :: rest) → cell.cell_type = some "markdown" →
        ismarkercell cell m = .ok (pyLstripHashSpace l == pyLstripHashSpace m))
    ∧ (∀ (cell : Cell) (m l : String) (rest : List String),
        cell.source = some (l :: rest) → cell.cell_type ≠ some "markdown" →
        ismarkercell cell m = .ok (l == m)) := by
  refine ⟨?_, ?_, ?_⟩
  · intro cells m skip i hi hbef hmat
    have h := findMarkerIdx_first m cells i 0 hi hbef hmat
    simp [find_cell, h, Except.map]
  · intro cell m l rest hsrc htype
    simp [ismarkercell, hsrc, htype]
  · intro cell m l rest hsrc htype
    simp [ismarkercell, hsrc, htype]

/-- C1 witness: in a three-cell list whose second cell is the markdown
heading `"# c1"`, the marker `"c1"` resolves to 2 as a start marker
(skip 1) and to 1 as a stop marker (skip 0). -/
theorem C1_find_cell_marker_match_witness :
    find_cell [mkCell "raw" ["c0"], mkCell "markdown" ["# c1"],
               mkCell "raw" ["c2"]] (.str "c1") 1 = .ok 2
    ∧ find_cell [mkCell "raw" ["c0"], mkCell "markdown" ["# c1"],
                 mkCell "raw" ["c2"]] (.str "c1") 0 = .ok 1 :=
  ⟨C1_find_cell_marker_match.1 _ "c1" 1 1 (by decide)
      (fun j hj => by interval_cases j; rfl) rfl,
   C1_find_cell_marker_match.1 _ "c1" 0 1 (by decide)
      (fun j hj => by interval_cases j; rfl) rfl⟩

/-- C5: `find_cell` fails with the not-found error when a string marker
matches no cell, fails with the invalid-marker error when the marker is
neither an integer nor a string, and returns an integer marker directly,
whatever its value (no bounds validation). -/
theorem C5_find_cell_errors :
    (∀ (cells : List Cell) (m : String) (skip : Int),
      (∀ c ∈ cells, ismarkercell c m = .ok false) →
      find_cell cells (.str m) skip = .error (.notFound m))
    ∧ (∀ (cells : List Cell) (skip : Int),
        find_cell cells .other skip = .error .invalidMarker)
    ∧ (∀ (cells : List Cell) (n : Int) (skip : Int),
        find_cell cells (.int n) skip = .ok n) := by
  refine ⟨?_, fun _ _ => rfl, fun _ _ _ => rfl⟩
  intro cells m skip h
  simp [find_cell, findMarkerIdx_notFound m cells h 0, Except.map]

/-- C5 witness: an unmatched string marker, a non-int non-string marker
and a negative integer marker on a one-cell list. -/
theorem C5_find_cell_errors_witness :
    find_cell [mkCell "raw" ["c0"]] (.str "zzz") 0 = .error (.notFound "zzz")
    ∧ find_cell [mkCell "raw" ["c0"]] .other 0 = .error .invalidMarker
    ∧ find_cell [mkCell "raw" ["c0"]] (.int (-3)) 1 = .ok (-3) :=
  ⟨C5_find_cell_errors.1 _ "zzz" 0
      (by intro c hc; rw [List.mem_singleton] at hc; subst hc; rfl),
   C5_find_cell_errors.2.1 _ 0,
   C5_find_cell_errors.2.2 _ (-3) 1⟩

/-- Slicing a list from 0 to its own length is the identity. -/
theorem pySlice_zero_length {α : Type} (l : List α) :
    pySlice l 0 (l.length : Int) = l := by
  simp only [pySlice, pySliceBound]
  rw [if_neg (by omega), if_neg (by omega)]
  simp

/-- On a cell sequence of at least 100000000 cells the default range
keeps only the first 100000000 of them: the stop sentinel is not clamped
(it does not exceed the length), so the slice stops there. -/
theorem selectCells_default_truncates (cells : List Cell)
    (hlen : 100000000 ≤ (cells.length : Int)) :
    selectCells cells defaultStart defaultStop
      = .ok (cells.take 100000000) := by
  simp only [selectCells, defaultStart, defaultStop, find_cell]
  rw [if_neg (by omega), if_neg (by omega)]
  congr 1
  simp only [pySlice, pySliceBound]
  rw [if_neg (by omega), if_neg (by omega)]
  have h1 : min (Int.toNat 0) cells.length = 0 := by simp
  have h2 : min (Int.toNat 100000000) cells.length = 100000000 := by
    omega
  rw [h1, h2]
  simp

/-- C2 counterexample: on a cell sequence longer than the integer stop
sentinel 100000000, the default range is not the whole document — the
stop index is not clamped (it does not exceed the length) and the slice
truncates the sequence, so the claim's universal statement fails. -/
theorem C2_counterexample :
    selectCells (List.replicate 100000001 (mkCell "raw" ["x"]))
        defaultStart defaultStop
      ≠ .ok (List.replicate 100000001 (mkCell "raw" ["x"])) := by
  intro h
  rw [selectCells_default_truncates _
    (by rw [List.length_replicate]; norm_num)] at h
  have h2 := congrArg List.length (Except.ok.inj h)
  rw [List.length_take, List.length_replicate] at h2
  omega

/-- C2 amended: for every cell sequence of at most 100000000 cells,
resolving the default markers start = 0 and stop = 100000000 yields the
full original sequence: the integer start is returned directly (no skip
offset, no bounds validation), the integer stop is clamped to the
sequence length when it exceeds it, and the selected sub-range
`[start, stop)` is the whole document. -/
theorem C2_default_range_full (cells : List Cell)
    (hlen : (cells.length : Int) ≤ 100000000) :
    selectCells cells defaultStart defaultStop = .ok cells := by
  simp only [selectCells, defaultStart, defaultStop, find_cell]
  by_cases h : (100000000 : Int) > (cells.length : Int)
  · rw [if_pos h, if_neg (by omega)]
    exact congrArg Except.ok (pySlice_zero_length cells)
  · rw [if_neg h]
    have heq : (100000000 : Int) = (cells.length : Int) := by omega
    rw [heq, if_neg (by omega)]
    exact congrArg Except.ok (pySlice_zero_length cells)

/-- C2 witness: the default markers select both cells of a two-cell
document. -/
theorem C2_default_range_full_witness :
    selectCells [mkCell "raw" ["c0"], mkCell "markdown" ["# c1"]]
      defaultStart defaultStop
      = .ok [mkCell "raw" ["c0"], mkCell "markdown" ["# c1"]] :=
  C2_default_range_full _ (by decide)

/-- C6: whenever the resolved start index exceeds the resolved stop
index, conversion fails with the range error; in the code the exception
is raised before the output file is opened, so no prefix, cell or suffix
line is written — in the model, the result is the bare error carrying no
output lines, whatever `pre` and `post` are. -/
theorem C6_range_error_before_output (cells : List Cell)
    (startM stopM : Marker) (pre post : List String) (s t : Int)
    (hs : find_cell cells startM 1 = .ok s)
    (ht : find_cell cells stopM 0 = .ok t)
    (hst : t < s) :
    convert cells startM stopM pre post = .error .rangeError := by
  have hsel : selectCells cells startM stopM = .error .rangeError := by
    simp only [selectCells, hs, ht]
    have hcond : s > (if t > (cells.length : Int)
        then (cells.length : Int) else t) := by
      split <;> omega
    rw [if_pos hcond]
  simp [convert, hsel]

/-- C6 witness: the spec's RangeError scenario — the start marker matches
cell 3 (resolving to 4) and the stop marker matches cell 1. -/
theorem C6_range_error_before_output_witness :
    convert fiveCells (.str "c3") (.str "c1") ["pre\n"] ["post\n"]
      = .error .rangeError :=
  C6_range_error_before_output fiveCells (.str "c3") (.str "c1")
    ["pre\n"] ["post\n"] 4 1 (by decide) (by decide) (by decide)

/-- C4: for every code cell, `MarkedCodeOutputConverter` returns the
empty sequence when neither the exact marker nor the marker followed by a
newline occurs among the cell's source lines, whatever the outputs are
(they are never touched); when the marker is present it returns the
`text` lines of every output carrying a `text` field, concatenated in
output order, with a trailing newline appended to the last collected
line. -/
theorem C4_marked_output (m : String) (cell : Cell) (src : List String)
    (hsrc : cell.source = some src) :
    (¬ (m ∈ src ∨ (m ++ "\n") ∈ src) →
      MarkedCodeOutputConverter m cell = .ok ([], cell))
    ∧ (∀ outs, (m ∈ src ∨ (m ++ "\n") ∈ src) → cell.outputs = some outs →
      MarkedCodeOutputConverter m cell =
        .ok (appendNewlineLast (outs.filterMap Output.text).flatten, cell)) := by
  constructor
  · intro h
    simp [MarkedCodeOutputConverter, hsrc, h]
  · intro outs h houts
    simp [MarkedCodeOutputConverter, hsrc, houts, h]

/-- C4 witness: a code cell without the marker keeps its output out of
the document; a cell with the marker emits the text outputs in order,
the last line newline-terminated. -/
theorem C4_marked_output_witness :
    MarkedCodeOutputConverter "# output->LaTeX"
        (mkCodeCell ["x = 1\n"] [⟨some ["X=1"]⟩])
      = .ok ([], mkCodeCell ["x = 1\n"] [⟨some ["X=1"]⟩])
    ∧ MarkedCodeOutputConverter "# output->LaTeX"
        (mkCodeCell ["# output->LaTeX\n", "x\n"]
          [⟨some ["X=1"]⟩, ⟨none⟩, ⟨some ["Y=2", "Z=3"]⟩])
      = .ok (appendNewlineLast
          (([⟨some ["X=1"]⟩, ⟨none⟩,
             (⟨some ["Y=2", "Z=3"]⟩ : Output)].filterMap Output.text).flatten),
          mkCodeCell ["# output->LaTeX\n", "x\n"]
            [⟨some ["X=1"]⟩, ⟨none⟩, ⟨some ["Y=2", "Z=3"]⟩]) :=
  ⟨(C4_marked_output "# output->LaTeX" _ ["x = 1\n"] rfl).1 (by decide),
   (C4_marked_output "# output->LaTeX" _ ["# output->LaTeX\n", "x\n"] rfl).2
      _ (by decide) rfl⟩

/-- C7: `LatexHeadingConverter` and `MinimalMarkdownConverter` compute
identical cross-reference label text for the same title — both strip
non-word characters and lowercase the remainder — and the title
"Results, Part 2" yields the label body `resultspart2`. -/
theorem C7_labels_agree :
    (∀ title : String, headingLabelLine title = markdownLabelLine title)
    ∧ pyLower (pySubNonWord "Results, Part 2") = "resultspart2"
    ∧ headingLabelLine "Results, Part 2"
      = "\\label\x7bsect:resultspart2\x7d\n" :=
  ⟨fun _ => rfl, by decide, rfl⟩

/-- C7 witness: the two label lines agree on the spec's example title. -/
theorem C7_labels_agree_witness :
    headingLabelLine "Results, Part 2" = markdownLabelLine "Results, Part 2" :=
  C7_labels_agree.1 "Results, Part 2"

/-- C9: a markdown source line consisting only of `'#'` characters and
whitespace — here `"#\n"` — matches the heading regex with an empty title
remainder, and `title[-1]` then raises `IndexError`: the converter fails
instead of returning lines. -/
theorem C9_markdown_crash :
    MinimalMarkdownConverter defaultLatexLevels (mkCell "markdown" ["#\n"])
      = .error .indexError := by
  rfl

/-- C8: for a heading cell whose level is between 1 and 6 (the length of
the default level-name list), `LatexHeadingConverter` returns exactly
five lines — blank, blank, the heading directive with the keyword at
list position `level - 1` and the title joined from all source lines,
the label line derived from the title, and a trailing blank — and a
level greater than 6 is an error. -/
theorem C8_heading_levels (cell : Cell) (src : List String) (lvl : Int)
    (hsrc : cell.source = some src) (hlvl : cell.level = some lvl) :
    (1 ≤ lvl → lvl ≤ 6 →
      LatexHeadingConverter defaultLatexLevels cell =
        .ok (["\n", "\n",
              "\\" ++ defaultLatexLevels.getD (lvl - 1).toNat ""
                ++ "\x7b" ++ String.join src ++ "\x7d\n",
              headingLabelLine (String.join src), "\n"], cell))
    ∧ (6 < lvl →
      LatexHeadingConverter defaultLatexLevels cell
        = .error .indexError) := by
  constructor
  · intro h1 h6
    interval_cases lvl <;>
      simp [LatexHeadingConverter, hsrc, hlvl, pyIndex, defaultLatexLevels]
  · intro h6
    have hj : ¬ ((lvl - 1 : Int) < 0) := by omega
    have hnone : defaultLatexLevels[lvl.toNat - 1]? = none := by
      rw [List.getElem?_eq_none]
      simp only [defaultLatexLevels, List.length_cons, List.length_nil]
      omega
    simp [LatexHeadingConverter, hsrc, hlvl, pyIndex, hj, hnone]

/-- C8 witness: level 2 gives the five section lines; level 7 is an
error. -/
theorem C8_heading_levels_witness :
    LatexHeadingConverter defaultLatexLevels (mkHeadCell ["Methods"] 2) =
      .ok (["\n", "\n",
            "\\" ++ defaultLatexLevels.getD ((2 : Int) - 1).toNat ""
              ++ "\x7b" ++ String.join ["Methods"] ++ "\x7d\n",
            headingLabelLine (String.join ["Methods"]), "\n"],
           mkHeadCell ["Methods"] 2)
    ∧ LatexHeadingConverter defaultLatexLevels (mkHeadCell ["T"] 7)
      = .error .indexError :=
  ⟨(C8_heading_levels (mkHeadCell ["Methods"] 2) ["Methods"] 2 rfl rfl).1
      (by decide) (by decide),
   (C8_heading_levels (mkHeadCell ["T"] 7) ["T"] 7 rfl rfl).2 (by decide)⟩

/-- C10: `LatexHeadingConverter` does not treat levels below 1 as
errors: for any level between -5 and 0 the Python negative index
`level - 1` selects the entry counted from the end of the six-entry
list — position `level + 5` from the front — and the converter returns a
well-formed five-line heading instead of failing (level 0 in particular
selects "subparagraph"). -/
theorem C10_negative_levels (cell : Cell) (src : List String) (lvl : Int)
    (hsrc : cell.source = some src) (hlvl : cell.level = some lvl)
    (hlo : -5 ≤ lvl) (hhi : lvl ≤ 0) :
    LatexHeadingConverter defaultLatexLevels cell =
      .ok (["\n", "\n",
            "\\" ++ defaultLatexLevels.getD (lvl + 5).toNat ""
              ++ "\x7b" ++ String.join src ++ "\x7d\n",
            headingLabelLine (String.join src), "\n"], cell) := by
  interval_cases lvl <;>
    simp [LatexHeadingConverter, hsrc, hlvl, pyIndex, defaultLatexLevels]

/-- C10 witness: a level-0 heading cell converts with the "subparagraph"
keyword. -/
theorem C10_negative_levels_witness :
    LatexHeadingConverter defaultLatexLevels (mkHeadCell ["T"] 0) =
      .ok (["\n", "\n",
            "\\" ++ defaultLatexLevels.getD ((0 : Int) + 5).toNat ""
              ++ "\x7b" ++ String.join ["T"] ++ "\x7d\n",
            headingLabelLine (String.join ["T"]), "\n"],
           mkHeadCell ["T"] 0) :=
  C10_negative_levels (mkHeadCell ["T"] 0) ["T"] 0 rfl rfl
    (by decide) (by decide)

/-- Appending a newline to the last line always changes a non-empty list
of lines. -/
theorem appendNewlineLast_ne (s : String) (rest : List String) :
    appendNewlineLast (s :: rest) ≠ s :: rest := by
  induction rest generalizing s with
  | nil =>
    simp only [appendNewlineLast, ne_eq, List.cons.injEq, and_true]
    intro h
    have hlen := congrArg String.length h
    rw [String.length_append] at hlen
    have h1 : "\n".length = 1 := rfl
    omega
  | cons t r ih =>
    simp only [appendNewlineLast, ne_eq, List.cons.injEq, true_and]
    exact ih t

/-- C3 counterexample: `LiteralSourceConverter` is not read-only.  On the
raw cell with source `["a"]`, `text = cell['source']; text[-1] += '\n'`
mutates the cell through the alias: the returned cell's source is
`["a\n"]`, different from the input cell, and applying the converter to
the cell in its new state (as a second call in Python would) yields the
output `["a\n\n"]`, not the first call's `["a\n"]`. -/
theorem C3_counterexample :
    LiteralSourceConverter (mkCell "raw" ["a"])
      = .ok (["a\n"], mkCell "raw" ["a\n"])
    ∧ mkCell "raw" ["a\n"] ≠ mkCell "raw" ["a"]
    ∧ (LiteralSourceConverter (mkCell "raw" ["a\n"])).map Prod.fst
      ≠ (LiteralSourceConverter (mkCell "raw" ["a"])).map Prod.fst :=
  ⟨rfl, by decide, by decide⟩

/-- C3 amended: of the four registered converters, the code, heading and
markdown converters are read-only on cells — whenever they succeed the
returned cell is the input cell — but `LiteralSourceConverter` (raw
cells) mutates a non-empty source in place, appending a newline to its
last line, so the cell is changed and a second application produces a
different output. -/
theorem C3_converters_frame :
    (∀ (m : String) (cell : Cell) (r : List String × Cell),
      MarkedCodeOutputConverter m cell = .ok r → r.2 = cell)
    ∧ (∀ (lv : List String) (cell : Cell) (r : List String × Cell),
      LatexHeadingConverter lv cell = .ok r → r.2 = cell)
    ∧ (∀ (lv : List String) (cell : Cell) (r : List String × Cell),
      MinimalMarkdownConverter lv cell = .ok r → r.2 = cell)
    ∧ (∀ (cell : Cell) (s : String) (rest : List String),
      cell.source = some (s :: rest) →
      LiteralSourceConverter cell =
        .ok (appendNewlineLast (s :: rest),
             { cell with source := some (appendNewlineLast (s :: rest)) })
      ∧ appendNewlineLast (s :: rest) ≠ s :: rest) := by
  refine ⟨?_, ?_, ?_, ?_⟩
  · intro m cell r h
    unfold MarkedCodeOutputConverter at h
    repeat' first
      | (injection h with h2; rw [← h2])
      | (exact Except.noConfusion h)
      | (split at h)
      | (dsimp only at h)
  · intro lv cell r h
    unfold LatexHeadingConverter at h
    repeat' first
      | (injection h with h2; rw [← h2])
      | (exact Except.noConfusion h)
      | (split at h)
  · intro lv cell r h
    unfold MinimalMarkdownConverter at h
    repeat' first
      | (injection h with h2; rw [← h2])
      | (exact Except.noConfusion h)
      | (split at h)
  · intro cell s rest hsrc
    exact ⟨by simp [LiteralSourceConverter, hsrc],
           appendNewlineLast_ne s rest⟩

/-- C3 witness: the mutation equation and the inequality at the concrete
raw cell with source `["a"]`. -/
theorem C3_converters_frame_witness :
    LiteralSourceConverter (mkCell "raw" ["a"]) =
      .ok (appendNewlineLast ["a"],
           { mkCell "raw" ["a"] with source := some (appendNewlineLast ["a"]) })
    ∧ appendNewlineLast ["a"] ≠ ["a"] :=
  C3_converters_frame.2.2.2 (mkCell "raw" ["a"]) "a" [] rfl
